import Mathlib

/-!
Verification of the snapshot restore engine
(`crates/common/src/manager/restore.rs`).

Bytes are modelled as natural numbers below 256 in a `List Nat`; machine
integers as `Nat` (with explicit two's-complement reading for the signed
64-bit counter deltas, which become `Int`). Fallible code returns
`Except String`; the process-aborting `failed`/`expect` calls of the Rust
source become `Except.error`. Side effects (destination-store batch writes
and blob-store writes) are accumulated in an explicit restore state.
-/

/-- Decidable equality on `Except`, so that concrete runs of the decoders
can be settled by `decide`. -/
instance {ε α : Type} [DecidableEq ε] [DecidableEq α] :
    DecidableEq (Except ε α) := fun x y =>
  match x, y with
  | .ok a, .ok b =>
      if h : a = b then isTrue (by rw [h]) else isFalse (by simp [h])
  | .error a, .error b =>
      if h : a = b then isTrue (by rw [h]) else isFalse (by simp [h])
  | .ok _, .error _ => isFalse (by simp)
  | .error _, .ok _ => isFalse (by simp)

namespace Restore

/-- Sentinel u32::MAX used by `restore_file` for unset account and document
ids. -/
def u32Max : Nat := 4294967295

/-- Sentinel u8::MAX used by `restore_file` for the unset collection. -/
def u8Max : Nat := 255

/-- Modelled from the spec: the magic marker constant `MAGIC_MARKER` lives in
`backup.rs`, which is not part of the sources; the spec fixes only that byte 0
of a snapshot must equal it exactly. The concrete value is arbitrary; no
theorem below depends on it. -/
def MAGIC_MARKER : Nat := 123

/-- Modelled from the spec: the format version constant `FILE_VERSION` lives
in `backup.rs`; byte 1 of a snapshot must equal it exactly. The concrete
value is arbitrary; no theorem below depends on it. -/
def FILE_VERSION : Nat := 1

/-- Modelled from the spec: the numeric code of `Collection::Mailbox` comes
from the `jmap_proto` crate, outside the sources. Its concrete value is
irrelevant to the theorems below, which use it symbolically. -/
def collectionMailbox : Nat := 1

/-- Modelled from the spec: the numeric code of `Property::EmailIds` comes
from the `jmap_proto` crate, outside the sources. Its concrete value is
irrelevant to the theorems below, which use it symbolically. -/
def propertyEmailIds : Nat := 84

/-- The 12 family tags of `backup.rs` plus the initial `None` state, as
matched by `restore_file` and `TryFrom<u8> for Family`. -/
inductive Family where
  | property
  | termIndex
  | acl
  | blob
  | config
  | lookupValue
  | lookupCounter
  | directory
  | queue
  | index
  | bitmap
  | log
  | none
deriving DecidableEq

/-- `TryFrom<u8> for Family` (restore.rs lines 414-434): tags 0..=11 map to
the twelve families, anything else is an error. -/
def Family.tryFrom (v : Nat) : Except String Family :=
  match v with
  | 0 => .ok .property
  | 1 => .ok .termIndex
  | 2 => .ok .acl
  | 3 => .ok .blob
  | 4 => .ok .config
  | 5 => .ok .lookupValue
  | 6 => .ok .lookupCounter
  | 7 => .ok .directory
  | 8 => .ok .queue
  | 9 => .ok .index
  | 10 => .ok .bitmap
  | 11 => .ok .log
  | _ => .error "Unknown family type"

/-- Decoded records (`Op` in `backup.rs`): a `KeyOnly` record is decoded by
`OpReader::next` as `Op::KeyValue` with an empty value, so only five decoded
shapes reach `restore_file`. -/
inductive Op where
  | family : Family → Op
  | accountId : Nat → Op
  | collection : Nat → Op
  | documentId : Nat → Op
  | keyValue : List Nat → List Nat → Op
deriving DecidableEq

/-- DirectoryClass keys as rebuilt by the Directory arm of `restore_file`. -/
inductive DirectoryClass where
  | nameToId : List Nat → DirectoryClass
  | emailToId : List Nat → DirectoryClass
  | principal : Nat → DirectoryClass
  | domain : List Nat → DirectoryClass
  | usedQuota : Nat → DirectoryClass
  | memberOf : Nat → Nat → DirectoryClass
  | members : Nat → Nat → DirectoryClass
deriving DecidableEq

/-- Blob operations: `BlobOp::Link` and `BlobOp::Commit`, carrying the
content hash (modelled as the raw key bytes). -/
inductive BlobOp where
  | link : List Nat → BlobOp
  | commit : List Nat → BlobOp
deriving DecidableEq

/-- LookupClass: plain key or counter key. -/
inductive LookupClass where
  | key : List Nat → LookupClass
  | counter : List Nat → LookupClass
deriving DecidableEq

/-- QueueClass keys as rebuilt by the Queue arm of `restore_file`. -/
inductive QueueClass where
  | message : Nat → QueueClass
  | messageEvent : Nat → Nat → QueueClass
deriving DecidableEq

/-- BitmapClass keys as rebuilt by the Bitmap arm of `restore_file`. -/
inductive BitmapClass where
  | documentIds
  | tagId : Nat → Nat → BitmapClass
  | tagText : Nat → List Nat → BitmapClass
  | tagStatic : Nat → Nat → BitmapClass
  | text : Nat → Nat → List Nat → BitmapClass
deriving DecidableEq

/-- ValueClass slots targeted by `batch.set` / `batch.add`. -/
inductive ValueClass where
  | property : Nat → ValueClass
  | termIndex
  | acl : Nat → ValueClass
  | blob : BlobOp → ValueClass
  | config : List Nat → ValueClass
  | lookup : LookupClass → ValueClass
  | directory : DirectoryClass → ValueClass
  | queue : QueueClass → ValueClass
deriving DecidableEq

/-- Destination-store operations accumulated in a batch. `set` is a raw
overwrite, `add` a signed additive delta; `documentIdOp`, `bitmap`, `index`
and `log` mirror the `Operation` variants pushed directly onto `batch.ops`
by `restore_file`. -/
inductive Operation where
  | set : ValueClass → List Nat → Operation
  | add : ValueClass → Int → Operation
  | index : Nat → List Nat → Bool → Operation
  | documentIdOp : Nat → Operation
  | bitmap : BitmapClass → Bool → Operation
  | log : Nat → Nat → List Nat → Operation
deriving DecidableEq

/-- Modelled from the spec: `BatchBuilder` lives in the `store` crate,
outside the sources. The spec describes a Batch as an accumulating sequence
of destination-store write operations scoped to the current
account/collection/document, flushed at a 1000-operation threshold; the
scoping context is therefore modelled as three builder fields, and only
genuine write operations occupy `ops` and count toward the threshold. -/
structure BatchBuilder where
  accountId : Option Nat
  collection : Option Nat
  documentId : Option Nat
  ops : List Operation
deriving DecidableEq

def BatchBuilder.new : BatchBuilder :=
  { accountId := Option.none, collection := Option.none,
    documentId := Option.none, ops := [] }

def BatchBuilder.with_account_id (b : BatchBuilder) (a : Nat) : BatchBuilder :=
  { b with accountId := some a }

def BatchBuilder.with_collection (b : BatchBuilder) (c : Nat) : BatchBuilder :=
  { b with collection := some c }

def BatchBuilder.update_document (b : BatchBuilder) (d : Nat) : BatchBuilder :=
  { b with documentId := some d }

def BatchBuilder.push (b : BatchBuilder) (op : Operation) : BatchBuilder :=
  { b with ops := b.ops ++ [op] }

def BatchBuilder.set (b : BatchBuilder) (cls : ValueClass) (value : List Nat) :
    BatchBuilder :=
  b.push (Operation.set cls value)

def BatchBuilder.add (b : BatchBuilder) (cls : ValueClass) (delta : Int) :
    BatchBuilder :=
  b.push (Operation.add cls delta)

def BatchBuilder.is_empty (b : BatchBuilder) : Bool :=
  b.ops.isEmpty

/-- Restore state of one `restore_file` run: the four context variables, the
active batch, and the externally visible effects (batches written to the
destination store, in order, and blob-store writes, in order). -/
structure RState where
  accountId : Nat
  documentId : Nat
  collection : Nat
  family : Family
  batch : BatchBuilder
  writes : List BatchBuilder
  blobWrites : List (List Nat × List Nat)
deriving DecidableEq

/-- Initial state of `restore_file` (lines 80-85): all context unset. -/
def RState.init : RState :=
  { accountId := u32Max, documentId := u32Max, collection := u8Max,
    family := Family.none, batch := BatchBuilder.new,
    writes := [], blobWrites := [] }

/-- `deserialize_u8(ofs)` of the store crate's key deserializer: the byte at
offset `ofs`, error when out of range. -/
def deserialize_u8 (bytes : List Nat) (ofs : Nat) : Except String Nat :=
  match bytes.get? ofs with
  | some b => .ok b
  | Option.none => .error "Failed to deserialize u8"

/-- `deserialize_be_u32(ofs)`: four big-endian bytes starting at `ofs`,
error when fewer than four bytes remain. -/
def deserialize_be_u32 (bytes : List Nat) (ofs : Nat) : Except String Nat :=
  match bytes.get? ofs, bytes.get? (ofs + 1), bytes.get? (ofs + 2),
      bytes.get? (ofs + 3) with
  | some b0, some b1, some b2, some b3 =>
      .ok (b0 * 16777216 + b1 * 65536 + b2 * 256 + b3)
  | _, _, _, _ => .error "Failed to deserialize be u32"

/-- `deserialize_be_u64(ofs)`: eight big-endian bytes starting at `ofs`. -/
def deserialize_be_u64 (bytes : List Nat) (ofs : Nat) : Except String Nat :=
  match deserialize_be_u32 bytes ofs, deserialize_be_u32 bytes (ofs + 4) with
  | .ok hi, .ok lo => .ok (hi * 4294967296 + lo)
  | _, _ => .error "Failed to deserialize be u64"

/-- LEB128 varint decoding (`deserialize_leb128` of the store crate): bytes
with the high bit set continue the number, low 7 bits first. -/
def deserialize_leb128Core : List Nat → Nat → Nat → Except String Nat
  | [], _, _ => .error "Failed to deserialize leb128"
  | b :: rest, shift, acc =>
      if b < 128 then .ok (acc + b * 2 ^ shift)
      else deserialize_leb128Core rest (shift + 7) (acc + b % 128 * 2 ^ shift)

def deserialize_leb128 (bytes : List Nat) : Except String Nat :=
  deserialize_leb128Core bytes 0 0

/-- Modelled from the spec: `impl Deserialize for i64` lives in the store
crate, outside the sources; the spec calls these values signed 64-bit deltas
and fixes big-endian fixed-width integer encoding, so the first eight bytes
are read big-endian and interpreted in two's complement. -/
def i64_deserialize (bytes : List Nat) : Except String Int :=
  match deserialize_be_u64 bytes 0 with
  | .ok v => .ok (if v < 2 ^ 63 then (v : Int) else (v : Int) - 2 ^ 64)
  | .error e => .error e

/-- Modelled from the spec: `RoaringBitmap::deserialize_from` belongs to the
external roaring crate; the spec says only that the value is a compressed
set of document ids that decodes to its contained ids. It is modelled as a
sequence of 4-byte big-endian document ids, decoded in order. -/
def roaringDeserialize : List Nat → Except String (List Nat)
  | [] => .ok []
  | b0 :: b1 :: b2 :: b3 :: rest =>
      match roaringDeserialize rest with
      | .ok ids => .ok ((b0 * 16777216 + b1 * 65536 + b2 * 256 + b3) :: ids)
      | .error e => .error e
  | _ => .error "Failed to deserialize bitmap"

/-- Header validation of `OpReader::new` (lines 347-369): read one byte and
compare with the magic marker, then one byte compared with the file version;
a short read or a mismatch is fatal. Returns the remaining body bytes. -/
def checkHeader : List Nat → Except String (List Nat)
  | [] => .error "Failed to read magic marker"
  | [b0] =>
      if b0 = MAGIC_MARKER then .error "Failed to read version"
      else .error "Invalid magic marker"
  | b0 :: b1 :: rest =>
      if b0 = MAGIC_MARKER then
        if b1 = FILE_VERSION then .ok rest else .error "Invalid file version"
      else .error "Invalid magic marker"

/-- `expect_sized_bytes` (lines 403-411): a 4-byte big-endian length prefix
followed by that many bytes; any shortfall is fatal. -/
def readSizedBytes (bytes : List Nat) :
    Except String (List Nat × List Nat) :=
  match bytes with
  | l0 :: l1 :: l2 :: l3 :: rest =>
      let len := l0 * 16777216 + l1 * 65536 + l2 * 256 + l3
      if len ≤ rest.length then .ok (rest.take len, rest.drop len)
      else .error "Failed to read bytes"
  | _ => .error "Failed to read u32"

/-- `OpReader::next` (lines 371-393): end of input exactly at the tag byte
yields clean termination; otherwise the tag selects the record shape, and
every field shortfall or unknown tag is fatal. -/
def readOp : List Nat → Except String (Option (Op × List Nat))
  | [] => .ok Option.none
  | b :: rest =>
      match b with
      | 0 =>
          match rest with
          | [] => .error "Failed to read u8"
          | f :: rest2 =>
              match Family.tryFrom f with
              | .ok fam => .ok (some (Op.family fam, rest2))
              | .error e => .error e
      | 1 =>
          match readSizedBytes rest with
          | .error e => .error e
          | .ok (key, rest2) =>
              match readSizedBytes rest2 with
              | .error e => .error e
              | .ok (value, rest3) => .ok (some (Op.keyValue key value, rest3))
      | 2 =>
          match readSizedBytes rest with
          | .error e => .error e
          | .ok (key, rest2) => .ok (some (Op.keyValue key [], rest2))
      | 3 =>
          match rest with
          | b0 :: b1 :: b2 :: b3 :: rest2 =>
              .ok (some (Op.accountId
                (b0 * 16777216 + b1 * 65536 + b2 * 256 + b3), rest2))
          | _ => .error "Failed to read u32"
      | 4 =>
          match rest with
          | [] => .error "Failed to read u8"
          | c :: rest2 => .ok (some (Op.collection c, rest2))
      | 5 =>
          match rest with
          | b0 :: b1 :: b2 :: b3 :: rest2 =>
              .ok (some (Op.documentId
                (b0 * 16777216 + b1 * 65536 + b2 * 256 + b3), rest2))
          | _ => .error "Failed to read u32"
      | _ => .error "Unknown op type"

/-- The bitmap key decoding of lines 254-286, factored out of the Bitmap arm
of `restore_file`: subtype byte then subtype-specific fields. -/
def bitmapClassOf (key : List Nat) : Except String BitmapClass :=
  match key with
  | [] => .error "Failed to read bitmap class"
  | s :: krest =>
      match s with
      | 0 => .ok BitmapClass.documentIds
      | 1 =>
          match krest.get? 0 with
          | Option.none => .error "Failed to read field"
          | some f =>
              match deserialize_be_u32 krest 1 with
              | .ok id => .ok (BitmapClass.tagId f id)
              | .error _ => .error "Failed to read tag id"
      | 2 =>
          match krest.get? 0 with
          | Option.none => .error "Failed to read field"
          | some f => .ok (BitmapClass.tagText f (krest.drop 1))
      | 3 =>
          match krest.get? 0 with
          | Option.none => .error "Failed to read field"
          | some f =>
              match krest.get? 1 with
              | Option.none => .error "Failed to read tag static id"
              | some v => .ok (BitmapClass.tagStatic f v)
      | 4 =>
          match krest.get? 0 with
          | Option.none => .error "Failed to read field"
          | some f =>
              match krest.get? 1 with
              | Option.none => .error "Failed to read tag static id"
              | some len =>
                  if 10 ≤ krest.length then
                    .ok (BitmapClass.text f len ((krest.drop 2).take 8))
                  else .error "Failed to read tag static id"
      | _ => .error "Invalid bitmap class"

/-- The flush inside the bitmap expansion loop (lines 295-304): when the
batch holds 1000 or more operations it is written out and a fresh builder is
seeded with the current account id and collection only. -/
def bitmapFlush (st : RState) : RState :=
  if 1000 ≤ st.batch.ops.length then
    { st with writes := st.writes ++ [st.batch],
              batch := (BatchBuilder.new.with_account_id
                st.accountId).with_collection st.collection }
  else st

/-- The per-id expansion loop of the Bitmap arm (lines 288-305): for each
document id, push a document-id operation and a bitmap membership operation,
then flush if the threshold is reached. -/
def bitmapLoop (cls : BitmapClass) : List Nat → RState → RState
  | [], st => st
  | id :: ids, st =>
      bitmapLoop cls ids (bitmapFlush
        { st with batch := (st.batch.push
            (Operation.documentIdOp id)).push (Operation.bitmap cls true) })

/-- The per-record flush check at the bottom of the decode loop
(lines 321-331): when the batch holds 1000 or more operations it is written
out and a fresh builder is seeded with the current account id, collection
and document id. -/
def generalFlush (st : RState) : RState :=
  if 1000 ≤ st.batch.ops.length then
    { st with writes := st.writes ++ [st.batch],
              batch := ((BatchBuilder.new.with_account_id
                st.accountId).with_collection
                st.collection).update_document st.documentId }
  else st

/-- The Property arm of `restore_file` (lines 103-119): raw overwrite,
except that the EmailIds field of a Mailbox collection is a signed additive
delta. -/
def applyProperty (st : RState) (key value : List Nat) :
    Except String (RState × Bool) :=
  match deserialize_u8 key 0 with
  | .error _ => .error "Failed to deserialize field"
  | .ok field =>
      if st.collection == collectionMailbox && propertyEmailIds == field
      then
        match i64_deserialize value with
        | .error _ => .error "Failed to deserialize mailbox uidnext"
        | .ok d =>
            let b := st.batch.add (ValueClass.property field) d
            .ok ({ st with batch := b }, false)
      else
        let b := st.batch.set (ValueClass.property field) value
        .ok ({ st with batch := b }, false)

/-- The Acl arm of `restore_file` (lines 123-132). -/
def applyAcl (st : RState) (key value : List Nat) :
    Except String (RState × Bool) :=
  match deserialize_be_u32 key 0 with
  | .error _ => .error "Failed to deserialize acl"
  | .ok grantee =>
      let b := st.batch.set (ValueClass.acl grantee) value
      .ok ({ st with batch := b }, false)

/-- The Blob arm of `restore_file` (lines 133-145): with both account and
document context set, a link-only operation; otherwise a blob-store write
followed by a commit operation. -/
def applyBlob (st : RState) (key value : List Nat) :
    Except String (RState × Bool) :=
  if st.accountId != u32Max && st.documentId != u32Max then
    let b := st.batch.set (ValueClass.blob (BlobOp.link key)) []
    .ok ({ st with batch := b }, false)
  else
    let b := st.batch.set (ValueClass.blob (BlobOp.commit key)) []
    let w := st.blobWrites ++ [(key, value)]
    .ok ({ st with blobWrites := w, batch := b }, false)

/-- The LookupCounter arm of `restore_file` (lines 152-157). -/
def applyLookupCounter (st : RState) (key value : List Nat) :
    Except String (RState × Bool) :=
  match i64_deserialize value with
  | .error _ => .error "Failed to deserialize counter"
  | .ok d =>
      let b := st.batch.add (ValueClass.lookup (LookupClass.counter key)) d
      .ok ({ st with batch := b }, false)

/-- The Directory arm of `restore_file` (lines 158-215): subtype dispatch on
the leading key byte; subtype 4 (UsedQuota) is an additive delta whose Rust
branch ends in `continue`, returning the skip flag. -/
def applyDirectory (st : RState) (key value : List Nat) :
    Except String (RState × Bool) :=
  match key with
  | [] => .error "Failed to read directory key type"
  | s :: krest =>
      match s with
      | 0 =>
          let cls := ValueClass.directory (DirectoryClass.nameToId krest)
          .ok ({ st with batch := st.batch.set cls value }, false)
      | 1 =>
          let cls := ValueClass.directory (DirectoryClass.emailToId krest)
          .ok ({ st with batch := st.batch.set cls value }, false)
      | 2 =>
          match deserialize_leb128 krest with
          | .error _ => .error "Failed to deserialize principal id"
          | .ok id =>
              let cls := ValueClass.directory (DirectoryClass.principal id)
              .ok ({ st with batch := st.batch.set cls value }, false)
      | 3 =>
          let cls := ValueClass.directory (DirectoryClass.domain krest)
          .ok ({ st with batch := st.batch.set cls value }, false)
      | 4 =>
          match deserialize_leb128 krest with
          | .error _ => .error "Failed to read principal id"
          | .ok id =>
              match i64_deserialize value with
              | .error _ => .error "Failed to deserialize quota"
              | .ok d =>
                  let cls := ValueClass.directory (DirectoryClass.usedQuota id)
                  .ok ({ st with batch := st.batch.add cls d }, true)
      | 5 =>
          match deserialize_be_u32 krest 0, deserialize_be_u32 krest 4 with
          | .ok pid, .ok mid =>
              let cls := ValueClass.directory (DirectoryClass.memberOf pid mid)
              .ok ({ st with batch := st.batch.set cls value }, false)
          | _, _ => .error "Failed to read principal id"
      | 6 =>
          match deserialize_be_u32 krest 0, deserialize_be_u32 krest 4 with
          | .ok pid, .ok mid =>
              let cls := ValueClass.directory (DirectoryClass.members pid mid)
              .ok ({ st with batch := st.batch.set cls value }, false)
          | _, _ => .error "Failed to read principal id"
      | _ => .error "Invalid directory key"

/-- The Queue arm of `restore_file` (lines 216-244). -/
def applyQueue (st : RState) (key value : List Nat) :
    Except String (RState × Bool) :=
  match key with
  | [] => .error "Failed to read queue key type"
  | s :: krest =>
      match s with
      | 0 =>
          match deserialize_be_u64 krest 0 with
          | .error _ => .error "Failed to deserialize queue message id"
          | .ok id =>
              let cls := ValueClass.queue (QueueClass.message id)
              .ok ({ st with batch := st.batch.set cls value }, false)
      | 1 =>
          match deserialize_be_u64 krest 0, deserialize_be_u64 krest 8 with
          | .ok due, .ok qid =>
              let cls := ValueClass.queue (QueueClass.messageEvent due qid)
              .ok ({ st with batch := st.batch.set cls value }, false)
          | _, _ => .error "Failed to deserialize queue message id"
      | _ => .error "Invalid queue key"

/-- The Bitmap arm of `restore_file` (lines 250-306): decode the compressed
id set and the bitmap class, then expand through `bitmapLoop`. -/
def applyBitmap (st : RState) (key value : List Nat) :
    Except String (RState × Bool) :=
  match roaringDeserialize value with
  | .error _ => .error "Failed to deserialize bitmap"
  | .ok ids =>
      match bitmapClassOf key with
      | .error e => .error e
      | .ok cls => .ok (bitmapLoop cls ids st, false)

/-- The Log arm of `restore_file` (lines 307-316). -/
def applyLog (st : RState) (key value : List Nat) :
    Except String (RState × Bool) :=
  match deserialize_be_u64 key 0 with
  | .error _ => .error "Failed to deserialize change id"
  | .ok cid =>
      let b := st.batch.push (Operation.log cid st.collection value)
      .ok ({ st with batch := b }, false)

/-- The `Op::KeyValue` arm of `restore_file` (lines 102-318), dispatching on
the current family. The returned flag records whether the Rust `continue`
of the Directory UsedQuota branch fired, which skips the per-record flush
check. -/
def applyKeyValue (st : RState) (key value : List Nat) :
    Except String (RState × Bool) :=
  match st.family with
  | Family.property => applyProperty st key value
  | Family.termIndex =>
      let b := st.batch.set ValueClass.termIndex key
      .ok ({ st with batch := b }, false)
  | Family.acl => applyAcl st key value
  | Family.blob => applyBlob st key value
  | Family.config =>
      let b := st.batch.set (ValueClass.config key) value
      .ok ({ st with batch := b }, false)
  | Family.lookupValue =>
      let b := st.batch.set (ValueClass.lookup (LookupClass.key key)) value
      .ok ({ st with batch := b }, false)
  | Family.lookupCounter => applyLookupCounter st key value
  | Family.directory => applyDirectory st key value
  | Family.queue => applyQueue st key value
  | Family.index =>
      match key with
      | [] => .error "Failed to read index field"
      | f :: krest =>
          let b := st.batch.push (Operation.index f krest true)
          .ok ({ st with batch := b }, false)
  | Family.bitmap => applyBitmap st key value
  | Family.log => applyLog st key value
  | Family.none => .error "No family specified in file"

/-- One iteration of the decode loop of `restore_file` (lines 87-332):
apply the record, then run the per-record flush check unless the Directory
UsedQuota `continue` skipped it. -/
def step (st : RState) (op : Op) : Except String RState :=
  match op with
  | Op.family f => .ok (generalFlush { st with family := f })
  | Op.accountId a =>
      let b := st.batch.with_account_id a
      .ok (generalFlush { st with accountId := a, batch := b })
  | Op.collection c =>
      let b := st.batch.with_collection c
      .ok (generalFlush { st with collection := c, batch := b })
  | Op.documentId d =>
      let b := st.batch.update_document d
      .ok (generalFlush { st with documentId := d, batch := b })
  | Op.keyValue key value =>
      match applyKeyValue st key value with
      | .error e => .error e
      | .ok (st', skip) => .ok (if skip then st' else generalFlush st')

/-- Process a list of already-decoded records; a fatal step aborts with the
state reached so far (the aborting record contributes no effect). -/
def processOps (st : RState) : List Op → RState × Option String
  | [] => (st, Option.none)
  | op :: rest =>
      match step st op with
      | .error e => (st, some e)
      | .ok st' => processOps st' rest

/-- End-of-stream residual flush (lines 334-339): a non-empty batch is
written out. -/
def finishRestore (st : RState) : RState :=
  if st.batch.is_empty then st
  else { st with writes := st.writes ++ [st.batch] }

/-- Run a full record stream from the initial state, residual flush
included on clean termination. -/
def runOps (recs : List Op) : RState × Option String :=
  match processOps RState.init recs with
  | (st, Option.none) => (finishRestore st, Option.none)
  | (st, some e) => (st, some e)

/-- The decode-and-apply loop over body bytes; fuel bounds the recursion and
one unit per record suffices, so `bytes.length + 1` never runs out. -/
def restoreBody : Nat → List Nat → RState → RState × Option String
  | 0, _, st => (st, some "Out of fuel")
  | fuel + 1, bytes, st =>
      match readOp bytes with
      | .error e => (st, some e)
      | .ok Option.none => (finishRestore st, Option.none)
      | .ok (some (op, rest)) =>
          match step st op with
          | .error e => (st, some e)
          | .ok st' => restoreBody fuel rest st'

/-- `restore_file` on the raw bytes of one snapshot file: header validation,
then the decode loop. -/
def restoreFile (bytes : List Nat) : RState × Option String :=
  match checkHeader bytes with
  | .error e => (RState.init, some e)
  | .ok body => restoreBody (body.length + 1) body RState.init

/-- Total number of operations accumulated so far, in the active batch and
in every batch already written: the quantity the 1000-operation threshold
counts. -/
def opsTotal (st : RState) : Nat :=
  st.batch.ops.length + (st.writes.map (fun b => b.ops.length)).sum

/-- Recognizer for discrete set-membership bitmap operations. -/
def isMembership : Operation → Bool
  | Operation.bitmap _ true => true
  | _ => false

/-- Total number of set-membership operations accumulated so far. -/
def membershipTotal (st : RState) : Nat :=
  (st.batch.ops.filter isMembership).length +
    (st.writes.map (fun b => (b.ops.filter isMembership).length)).sum

/-- Big-endian 4-byte encoding, used to build concrete test inputs. -/
def beU32 (n : Nat) : List Nat :=
  [n / 16777216 % 256, n / 65536 % 256, n / 256 % 256, n % 256]

/-- Detector for a stream in which a KeyValue record (which also covers
KeyOnly records, decoded with an empty value) appears before any Family
record. -/
def kvBeforeFamily : List Op → Bool
  | [] => false
  | Op.family _ :: _ => false
  | Op.keyValue _ _ :: _ => true
  | _ :: rest => kvBeforeFamily rest

/-- A restore state whose current family is Bitmap, as left by a preceding
Family record. -/
def stBitmap : RState :=
  { RState.init with family := Family.bitmap }

/-- Value bytes decoding to the document-id set 3, 7, 42. -/
def v342 : List Nat :=
  beU32 3 ++ beU32 7 ++ beU32 42

/-- Record stream for the mid-bitmap flush counterexample: 998 Config
records fill the batch to 998 operations, the context (including document
id 5) is set, and then a Bitmap record with a single id pushes the batch to
1000 operations, forcing one flush inside the expansion loop. -/
def c2recs : List Op :=
  [Op.family Family.config] ++
    List.replicate 998 (Op.keyValue [7] [8]) ++
    [Op.family Family.bitmap, Op.accountId 1, Op.collection 2,
     Op.documentId 5, Op.keyValue [0] (beU32 9)]

/-- Record stream of 2001 KeyValue records under one fixed context. -/
def c3recs : List Op :=
  [Op.family Family.config, Op.accountId 1, Op.collection 2,
   Op.documentId 3] ++ List.replicate 2001 (Op.keyValue [7] [8])

/-- A restore state whose current family is Blob and whose account and
document context are both set. -/
def stBlobSet : RState :=
  { RState.init with family := Family.blob, accountId := 7, documentId := 9 }

/-- A restore state whose current family is Blob with the context still at
the unset sentinels. -/
def stBlobUnset : RState :=
  { RState.init with family := Family.blob }

/-- A restore state whose active batch already holds exactly 1000
operations, at the flush threshold. -/
def stFull : RState :=
  { RState.init with batch := { BatchBuilder.new with
      ops := List.replicate 1000 (Operation.set ValueClass.termIndex []) } }

/-- A restore state whose current family is Property with the Mailbox
collection selected. -/
def stMailbox : RState :=
  { RState.init with family := Family.property, collection := collectionMailbox }

/-- A restore state whose current family is LookupCounter. -/
def stCounter : RState :=
  { RState.init with family := Family.lookupCounter }

/-- A restore state whose current family is Directory. -/
def stDir : RState :=
  { RState.init with family := Family.directory }

/-- A restore state whose current family is Queue. -/
def stQueue : RState :=
  { RState.init with family := Family.queue }

theorem bitmapFlush_opsTotal (st : RState) :
    opsTotal (bitmapFlush st) = opsTotal st := by
  unfold bitmapFlush
  split
  · simp [opsTotal, BatchBuilder.new, BatchBuilder.with_account_id,
      BatchBuilder.with_collection]
    omega
  · rfl

theorem bitmapFlush_membershipTotal (st : RState) :
    membershipTotal (bitmapFlush st) = membershipTotal st := by
  unfold bitmapFlush
  split
  · simp [membershipTotal, BatchBuilder.new, BatchBuilder.with_account_id,
      BatchBuilder.with_collection]
    omega
  · rfl

theorem bitmapLoop_opsTotal (cls : BitmapClass) (ids : List Nat) (st : RState) :
    opsTotal (bitmapLoop cls ids st) = opsTotal st + 2 * ids.length := by
  induction ids generalizing st with
  | nil => simp [bitmapLoop]
  | cons id ids ih =>
      rw [bitmapLoop, ih, bitmapFlush_opsTotal]
      simp [opsTotal, BatchBuilder.push]
      omega

theorem bitmapLoop_membershipTotal (cls : BitmapClass) (ids : List Nat)
    (st : RState) :
    membershipTotal (bitmapLoop cls ids st) =
      membershipTotal st + ids.length := by
  induction ids generalizing st with
  | nil => simp [bitmapLoop]
  | cons id ids ih =>
      rw [bitmapLoop, ih, bitmapFlush_membershipTotal]
      simp [membershipTotal, BatchBuilder.push, List.filter_append,
        isMembership]
      omega

/-- C1, as stated, is false at the input it itself names: a Bitmap record
whose value decodes to the ids 3, 7 and 42 pushes 6 operations onto the
batch, not 3 — each id contributes a document-id operation and a bitmap
membership operation, both counted by the 1000-operation threshold — even
though exactly 3 of these are discrete set-membership operations. -/
theorem c1_counterexample :
    (applyKeyValue stBitmap [0] v342).map (fun p => p.1.batch.ops.length) =
      Except.ok 6 ∧
    ¬ (applyKeyValue stBitmap [0] v342).map (fun p => p.1.batch.ops.length) =
      Except.ok 3 ∧
    (applyKeyValue stBitmap [0] v342).map (fun p => membershipTotal p.1) =
      Except.ok 3 := by
  decide

/-- C1 amended: for every Bitmap-family KeyValue record whose value decodes
to a set of document ids, the restore engine emits exactly one discrete
set-membership write operation per contained id, but each expanded id
contributes exactly two operations toward the 1000-operation batch-flush
threshold (a document-id operation plus the membership operation); a value
decoding to 3, 7, 42 therefore yields exactly 3 membership operations and 6
batch operations, regardless of record-token count. -/
theorem c1_bitmap_expansion (st : RState) (key value ids : List Nat)
    (cls : BitmapClass) (hfam : st.family = Family.bitmap)
    (hval : roaringDeserialize value = .ok ids)
    (hcls : bitmapClassOf key = .ok cls) :
    applyKeyValue st key value = .ok (bitmapLoop cls ids st, false) ∧
    opsTotal (bitmapLoop cls ids st) = opsTotal st + 2 * ids.length ∧
    membershipTotal (bitmapLoop cls ids st) =
      membershipTotal st + ids.length := by
  refine ⟨?_, bitmapLoop_opsTotal cls ids st,
    bitmapLoop_membershipTotal cls ids st⟩
  simp [applyKeyValue, applyBitmap, hfam, hval, hcls]

/-- Witness for `c1_bitmap_expansion` at the Bitmap record with subtype
DocumentIds and value decoding to the ids 3, 7, 42. -/
theorem c1_bitmap_expansion_witness :
    applyKeyValue stBitmap [0] v342 =
      .ok (bitmapLoop BitmapClass.documentIds [3, 7, 42] stBitmap, false) ∧
    opsTotal (bitmapLoop BitmapClass.documentIds [3, 7, 42] stBitmap) =
      opsTotal stBitmap + 2 * [3, 7, 42].length ∧
    membershipTotal (bitmapLoop BitmapClass.documentIds [3, 7, 42] stBitmap) =
      membershipTotal stBitmap + [3, 7, 42].length :=
  c1_bitmap_expansion stBitmap [0] v342 [3, 7, 42] BitmapClass.documentIds
    rfl (by decide) (by decide)

set_option maxRecDepth 150000 in
set_option maxHeartbeats 4000000 in
/-- C2, as stated, is false: in the stream `c2recs` the context document id
is 5 when the batch reaches 1000 operations mid-way through expanding the
Bitmap record, a flush occurs (one destination write of 1000 operations),
yet the fresh batch is seeded with only the account id and the collection —
its document id context is left unset rather than re-seeded with 5. -/
theorem c2_counterexample :
    (processOps RState.init c2recs).2 = Option.none ∧
    (processOps RState.init c2recs).1.writes.map (fun b => b.ops.length) =
      [1000] ∧
    (processOps RState.init c2recs).1.documentId = 5 ∧
    (processOps RState.init c2recs).1.batch.accountId = some 1 ∧
    (processOps RState.init c2recs).1.batch.collection = some 2 ∧
    (processOps RState.init c2recs).1.batch.documentId = Option.none := by
  decide

/-- C2 amended: after a flush triggered by the per-record threshold check,
the fresh batch is re-seeded with all three of the current account id,
collection and document id; after a flush triggered mid-way through
expanding a Bitmap record's ids, the fresh batch is re-seeded with only the
current account id and collection, and its document id context is left
unset. In both cases the decoder's own context variables are unchanged. -/
theorem c2_flush_reseeding (st : RState) (h : 1000 ≤ st.batch.ops.length) :
    (generalFlush st).writes = st.writes ++ [st.batch] ∧
    (generalFlush st).batch.accountId = some st.accountId ∧
    (generalFlush st).batch.collection = some st.collection ∧
    (generalFlush st).batch.documentId = some st.documentId ∧
    (generalFlush st).batch.ops = [] ∧
    (bitmapFlush st).writes = st.writes ++ [st.batch] ∧
    (bitmapFlush st).batch.accountId = some st.accountId ∧
    (bitmapFlush st).batch.collection = some st.collection ∧
    (bitmapFlush st).batch.documentId = Option.none ∧
    (bitmapFlush st).batch.ops = [] ∧
    (bitmapFlush st).accountId = st.accountId ∧
    (bitmapFlush st).collection = st.collection ∧
    (bitmapFlush st).documentId = st.documentId ∧
    (generalFlush st).accountId = st.accountId ∧
    (generalFlush st).collection = st.collection ∧
    (generalFlush st).documentId = st.documentId := by
  simp [generalFlush, bitmapFlush, if_pos h, BatchBuilder.new,
    BatchBuilder.with_account_id, BatchBuilder.with_collection,
    BatchBuilder.update_document]

set_option maxRecDepth 150000 in
set_option maxHeartbeats 1000000 in
/-- Witness for `c2_flush_reseeding` at a state whose batch holds exactly
1000 operations. -/
theorem c2_flush_reseeding_witness :
    1000 ≤ stFull.batch.ops.length ∧
    (generalFlush stFull).batch.documentId = some stFull.documentId ∧
    (bitmapFlush stFull).batch.documentId = Option.none :=
  ⟨by decide, (c2_flush_reseeding stFull (by decide)).2.2.2.1,
    (c2_flush_reseeding stFull (by decide)).2.2.2.2.2.2.2.2.1⟩

set_option maxRecDepth 100000 in
set_option maxHeartbeats 4000000 in
/-- C3: restoring a stream of 2001 KeyValue records under one fixed context
produces exactly 3 destination-store write calls, whose operation counts
are 1000, 1000 and 1 respectively, and the restore succeeds. -/
theorem c3_flush_boundary :
    (runOps c3recs).2 = Option.none ∧
    (runOps c3recs).1.writes.map (fun b => b.ops.length) =
      [1000, 1000, 1] := by
  decide

/-- C4: a file whose first byte is not the magic marker or whose second
byte is not the version constant is rejected fatally by the header check,
with the restore state still initial: no batch write, no blob write, no
batched operation. -/
theorem c4_header_validation (b0 b1 : Nat) (rest : List Nat)
    (h : b0 ≠ MAGIC_MARKER ∨ b1 ≠ FILE_VERSION) :
    (∃ e, restoreFile (b0 :: b1 :: rest) = (RState.init, some e)) ∧
    RState.init.writes = [] ∧ RState.init.blobWrites = [] ∧
    RState.init.batch.ops = [] := by
  refine ⟨?_, rfl, rfl, rfl⟩
  unfold restoreFile checkHeader
  by_cases hb0 : b0 = MAGIC_MARKER
  · rcases h with h | h
    · exact absurd hb0 h
    · exact ⟨"Invalid file version", by simp [hb0, h]⟩
  · exact ⟨"Invalid magic marker", by simp [hb0]⟩

/-- Witness for `c4_header_validation` at a header whose first byte misses
the magic marker. -/
theorem c4_header_validation_witness :
    (∃ e, restoreFile (0 :: FILE_VERSION :: []) = (RState.init, some e)) ∧
    RState.init.writes = [] ∧ RState.init.blobWrites = [] ∧
    RState.init.batch.ops = [] :=
  c4_header_validation 0 FILE_VERSION [] (Or.inl (by decide))

/-- C5: for a well-headered stream, end of input exactly at a record tag
boundary is the only successful termination of `OpReader::next`; a record
tag once read never terminates cleanly, and for every valid tag an input
that ends immediately after the tag is a fatal error. -/
theorem c5_clean_termination :
    (∀ l, readOp l = .ok Option.none ↔ l = []) ∧
    (∀ t rest, t ≤ 5 → readOp (t :: rest) ≠ .ok Option.none) ∧
    (∀ t, t ≤ 5 → ∃ e, readOp [t] = .error e) := by
  have hcons : ∀ b rest, readOp (b :: rest) ≠ .ok Option.none := by
    intro b rest h
    revert h
    simp only [readOp]
    split <;> (try split) <;> (try split) <;> simp_all
  refine ⟨?_, fun t rest _ => hcons t rest, ?_⟩
  · intro l
    cases l with
    | nil => simp [readOp]
    | cons b rest =>
        simp only [List.cons_ne_nil, iff_false]
        exact hcons b rest
  · intro t ht
    interval_cases t
    · exact ⟨"Failed to read u8", rfl⟩
    · exact ⟨"Failed to read u32", rfl⟩
    · exact ⟨"Failed to read u32", rfl⟩
    · exact ⟨"Failed to read u32", rfl⟩
    · exact ⟨"Failed to read u8", rfl⟩
    · exact ⟨"Failed to read u32", rfl⟩

/-- Witness for `c5_clean_termination` at the empty input, a KeyValue tag
with trailing bytes, and a truncated KeyValue record. -/
theorem c5_clean_termination_witness :
    (readOp [] = .ok Option.none ↔ ([] : List Nat) = []) ∧
    readOp [1, 0] ≠ .ok Option.none ∧ (∃ e, readOp [1] = .error e) :=
  ⟨c5_clean_termination.1 [], c5_clean_termination.2.1 1 [0] (by decide),
    c5_clean_termination.2.2 1 (by decide)⟩

/-- C6: for a Blob-family record, when both the account id and the document
id context are set (not at their sentinels) the engine emits only a link
operation referencing the hash and performs no blob-store write even when a
value payload is present; otherwise it writes the value bytes to the blob
store under the key hash and emits a commit operation. -/
theorem c6_blob_link_vs_commit (st : RState) (key value : List Nat)
    (hfam : st.family = Family.blob) :
    (st.accountId ≠ u32Max → st.documentId ≠ u32Max →
      applyKeyValue st key value =
        .ok ({ st with batch := st.batch.set (ValueClass.blob (BlobOp.link key)) [] }, false)) ∧
    (st.accountId = u32Max ∨ st.documentId = u32Max →
      applyKeyValue st key value =
        .ok ({ st with blobWrites := st.blobWrites ++ [(key, value)], batch := st.batch.set (ValueClass.blob (BlobOp.commit key)) [] }, false)) := by
  constructor
  · intro h1 h2
    simp [applyKeyValue, applyBlob, hfam, h1, h2]
  · intro h
    rcases h with h | h <;> simp [applyKeyValue, applyBlob, hfam, h]

/-- Witness for `c6_blob_link_vs_commit`: with account id 7 and document id
9 a Blob record yields a link-only operation and no blob write; from the
initial (unset) context the same record writes the blob and commits. -/
theorem c6_blob_link_vs_commit_witness :
    applyKeyValue stBlobSet [1] [2] =
      .ok ({ stBlobSet with batch := stBlobSet.batch.set (ValueClass.blob (BlobOp.link [1])) [] }, false) ∧
    applyKeyValue stBlobUnset [1] [2] =
      .ok ({ stBlobUnset with blobWrites := stBlobUnset.blobWrites ++ [([1], [2])], batch := stBlobUnset.batch.set (ValueClass.blob (BlobOp.commit [1])) [] }, false) :=
  ⟨(c6_blob_link_vs_commit stBlobSet [1] [2] rfl).1 (by decide) (by decide),
   (c6_blob_link_vs_commit stBlobUnset [1] [2] rfl).2 (Or.inl rfl)⟩

/-- C7: the three counter layouts are applied as signed additive deltas,
never as overwrites, with no first-record exception: a Property record with
field EmailIds under the Mailbox collection, every LookupCounter record,
and every Directory subtype-4 (UsedQuota) record become `add` operations;
every other Property record and every other decodable Directory subtype
becomes a raw `set` overwrite. -/
theorem c7_counter_deltas :
    (∀ st key value field d, st.family = Family.property →
      deserialize_u8 key 0 = .ok field →
      st.collection = collectionMailbox → field = propertyEmailIds →
      i64_deserialize value = .ok d →
      applyKeyValue st key value =
        .ok ({ st with batch := st.batch.add (ValueClass.property field) d }, false)) ∧
    (∀ st key value field, st.family = Family.property →
      deserialize_u8 key 0 = .ok field →
      st.collection ≠ collectionMailbox ∨ field ≠ propertyEmailIds →
      applyKeyValue st key value =
        .ok ({ st with batch := st.batch.set (ValueClass.property field) value }, false)) ∧
    (∀ st key value d, st.family = Family.lookupCounter →
      i64_deserialize value = .ok d →
      applyKeyValue st key value =
        .ok ({ st with batch := st.batch.add (ValueClass.lookup (LookupClass.counter key)) d }, false)) ∧
    (∀ st krest value id d, st.family = Family.directory →
      deserialize_leb128 krest = .ok id →
      i64_deserialize value = .ok d →
      applyKeyValue st (4 :: krest) value =
        .ok ({ st with batch := st.batch.add (ValueClass.directory (DirectoryClass.usedQuota id)) d }, true)) ∧
    (∀ st krest value, st.family = Family.directory →
      applyKeyValue st (0 :: krest) value =
        .ok ({ st with batch := st.batch.set (ValueClass.directory (DirectoryClass.nameToId krest)) value }, false)) ∧
    (∀ st krest value, st.family = Family.directory →
      applyKeyValue st (1 :: krest) value =
        .ok ({ st with batch := st.batch.set (ValueClass.directory (DirectoryClass.emailToId krest)) value }, false)) ∧
    (∀ st krest value id, st.family = Family.directory →
      deserialize_leb128 krest = .ok id →
      applyKeyValue st (2 :: krest) value =
        .ok ({ st with batch := st.batch.set (ValueClass.directory (DirectoryClass.principal id)) value }, false)) ∧
    (∀ st krest value, st.family = Family.directory →
      applyKeyValue st (3 :: krest) value =
        .ok ({ st with batch := st.batch.set (ValueClass.directory (DirectoryClass.domain krest)) value }, false)) ∧
    (∀ st krest value pid mid, st.family = Family.directory →
      deserialize_be_u32 krest 0 = .ok pid →
      deserialize_be_u32 krest 4 = .ok mid →
      applyKeyValue st (5 :: krest) value =
        .ok ({ st with batch := st.batch.set (ValueClass.directory (DirectoryClass.memberOf pid mid)) value }, false)) ∧
    (∀ st krest value pid mid, st.family = Family.directory →
      deserialize_be_u32 krest 0 = .ok pid →
      deserialize_be_u32 krest 4 = .ok mid →
      applyKeyValue st (6 :: krest) value =
        .ok ({ st with batch := st.batch.set (ValueClass.directory (DirectoryClass.members pid mid)) value }, false)) := by
  refine ⟨?_, ?_, ?_, ?_, ?_, ?_, ?_, ?_, ?_, ?_⟩
  · intro st key value field d hfam hfield hcol hf hval
    subst hf
    simp [applyKeyValue, applyProperty, hfam, hfield, hcol, hval]
  · intro st key value field hfam hfield hne
    rcases hne with h | h <;>
      simp [applyKeyValue, applyProperty, hfam, hfield, h, Ne.symm h]
  · intro st key value d hfam hval
    simp [applyKeyValue, applyLookupCounter, hfam, hval]
  · intro st krest value id d hfam hleb hval
    simp [applyKeyValue, applyDirectory, hfam, hleb, hval]
  · intro st krest value hfam
    simp [applyKeyValue, applyDirectory, hfam]
  · intro st krest value hfam
    simp [applyKeyValue, applyDirectory, hfam]
  · intro st krest value id hfam hleb
    simp [applyKeyValue, applyDirectory, hfam, hleb]
  · intro st krest value hfam
    simp [applyKeyValue, applyDirectory, hfam]
  · intro st krest value pid mid hfam h0 h4
    simp [applyKeyValue, applyDirectory, hfam, h0, h4]
  · intro st krest value pid mid hfam h0 h4
    simp [applyKeyValue, applyDirectory, hfam, h0, h4]

/-- Witness for `c7_counter_deltas`: a Mailbox EmailIds Property record, a
LookupCounter record and a Directory UsedQuota record, each with an 8-byte
zero delta, all become additive operations. -/
theorem c7_counter_deltas_witness :
    applyKeyValue stMailbox [propertyEmailIds] (List.replicate 8 0) =
      .ok ({ stMailbox with batch := stMailbox.batch.add (ValueClass.property propertyEmailIds) 0 }, false) ∧
    applyKeyValue stCounter [9] (List.replicate 8 0) =
      .ok ({ stCounter with batch := stCounter.batch.add (ValueClass.lookup (LookupClass.counter [9])) 0 }, false) ∧
    applyKeyValue stDir (4 :: [3]) (List.replicate 8 0) =
      .ok ({ stDir with batch := stDir.batch.add (ValueClass.directory (DirectoryClass.usedQuota 3)) 0 }, true) :=
  ⟨c7_counter_deltas.1 stMailbox [propertyEmailIds] (List.replicate 8 0)
      propertyEmailIds 0 rfl (by decide) rfl rfl (by decide),
   c7_counter_deltas.2.2.1 stCounter [9] (List.replicate 8 0) 0 rfl (by decide),
   c7_counter_deltas.2.2.2.1 stDir [3] (List.replicate 8 0) 3 0 rfl
      (by decide) (by decide)⟩

/-- C8: record tag bytes outside 0..=5, family bytes outside 0..=11, and
Directory, Queue or Bitmap keys whose leading subtype byte is outside that
family's defined range (0..=6, 0..=1 and 0..=4 respectively) are fatal
decode errors, never skipped or misrouted. -/
theorem c8_unknown_tags :
    (∀ b rest, 6 ≤ b → readOp (b :: rest) = .error "Unknown op type") ∧
    (∀ v, 12 ≤ v → Family.tryFrom v = .error "Unknown family type") ∧
    (∀ st krest value s, st.family = Family.directory → 7 ≤ s →
      applyKeyValue st (s :: krest) value = .error "Invalid directory key") ∧
    (∀ st krest value s, st.family = Family.queue → 2 ≤ s →
      applyKeyValue st (s :: krest) value = .error "Invalid queue key") ∧
    (∀ st krest value s, st.family = Family.bitmap → 5 ≤ s →
      ∃ e, applyKeyValue st (s :: krest) value = .error e) := by
  refine ⟨?_, ?_, ?_, ?_, ?_⟩
  · intro b rest hb
    obtain ⟨k, rfl⟩ : ∃ k, b = k + 6 := ⟨b - 6, by omega⟩
    rfl
  · intro v hv
    obtain ⟨k, rfl⟩ : ∃ k, v = k + 12 := ⟨v - 12, by omega⟩
    rfl
  · intro st krest value s hfam hs
    obtain ⟨k, rfl⟩ : ∃ k, s = k + 7 := ⟨s - 7, by omega⟩
    simp [applyKeyValue, applyDirectory, hfam]
  · intro st krest value s hfam hs
    obtain ⟨k, rfl⟩ : ∃ k, s = k + 2 := ⟨s - 2, by omega⟩
    simp [applyKeyValue, applyQueue, hfam]
  · intro st krest value s hfam hs
    obtain ⟨k, rfl⟩ : ∃ k, s = k + 5 := ⟨s - 5, by omega⟩
    cases h : roaringDeserialize value with
    | error e =>
        exact ⟨"Failed to deserialize bitmap",
          by simp [applyKeyValue, applyBitmap, hfam, h]⟩
    | ok ids =>
        exact ⟨"Invalid bitmap class",
          by simp [applyKeyValue, applyBitmap, hfam, h, bitmapClassOf]⟩

/-- Witness for `c8_unknown_tags` at tag byte 6, family byte 12, Directory
subtype 7, Queue subtype 2 and Bitmap subtype 5. -/
theorem c8_unknown_tags_witness :
    readOp [6] = .error "Unknown op type" ∧
    Family.tryFrom 12 = .error "Unknown family type" ∧
    applyKeyValue stDir [7] [] = .error "Invalid directory key" ∧
    applyKeyValue stQueue [2] [] = .error "Invalid queue key" ∧
    (∃ e, applyKeyValue stBitmap [5] [] = .error e) :=
  ⟨c8_unknown_tags.1 6 [] (by decide), c8_unknown_tags.2.1 12 (by decide),
   c8_unknown_tags.2.2.1 stDir [] [] 7 rfl (by decide),
   c8_unknown_tags.2.2.2.1 stQueue [] [] 2 rfl (by decide),
   c8_unknown_tags.2.2.2.2 stBitmap [] [] 5 rfl (by decide)⟩

theorem processOps_no_family (recs : List Op) :
    ∀ st, st.family = Family.none → st.batch.ops = [] →
      kvBeforeFamily recs = true →
      (processOps st recs).2.isSome = true ∧
      (processOps st recs).1.writes = st.writes ∧
      (processOps st recs).1.blobWrites = st.blobWrites ∧
      (processOps st recs).1.batch.ops = [] := by
  induction recs with
  | nil => intro st _ _ hkv; cases hkv
  | cons op rest ih =>
      intro st hfam hops hkv
      cases op with
      | family f => simp [kvBeforeFamily] at hkv
      | keyValue k v =>
          have hstep : step st (Op.keyValue k v) =
              .error "No family specified in file" := by
            simp [step, applyKeyValue, hfam]
          simp [processOps, hstep, hops]
      | accountId a =>
          have h := ih { st with accountId := a, batch := st.batch.with_account_id a }
            (by simpa using hfam)
            (by simpa [BatchBuilder.with_account_id] using hops)
            (by simpa [kvBeforeFamily] using hkv)
          simpa [processOps, step, generalFlush, BatchBuilder.with_account_id,
            hops] using h
      | collection c =>
          have h := ih { st with collection := c, batch := st.batch.with_collection c }
            (by simpa using hfam)
            (by simpa [BatchBuilder.with_collection] using hops)
            (by simpa [kvBeforeFamily] using hkv)
          simpa [processOps, step, generalFlush, BatchBuilder.with_collection,
            hops] using h
      | documentId d =>
          have h := ih { st with documentId := d, batch := st.batch.update_document d }
            (by simpa using hfam)
            (by simpa [BatchBuilder.update_document] using hops)
            (by simpa [kvBeforeFamily] using hkv)
          simpa [processOps, step, generalFlush, BatchBuilder.update_document,
            hops] using h

/-- C9: for every record stream in which a KeyValue (or KeyOnly, decoded as
KeyValue) record appears before any Family record, the restore aborts
fatally, having written nothing to the destination store or the blob store
and derived no batched operation. -/
theorem c9_family_required (recs : List Op)
    (h : kvBeforeFamily recs = true) :
    (processOps RState.init recs).2.isSome = true ∧
    (processOps RState.init recs).1.writes = [] ∧
    (processOps RState.init recs).1.blobWrites = [] ∧
    (processOps RState.init recs).1.batch.ops = [] :=
  processOps_no_family recs RState.init rfl rfl h

/-- Witness for `c9_family_required` at a stream whose first record is a
KeyValue record. -/
theorem c9_family_required_witness :
    (processOps RState.init [Op.keyValue [] []]).2.isSome = true ∧
    (processOps RState.init [Op.keyValue [] []]).1.writes = [] ∧
    (processOps RState.init [Op.keyValue [] []]).1.blobWrites = [] ∧
    (processOps RState.init [Op.keyValue [] []]).1.batch.ops = [] :=
  c9_family_required [Op.keyValue [] []] rfl

/-- C10: the decoder initializes both the account id and the document id to
the sentinel u32::MAX = 4294967295, and a stream that explicitly emits
AccountId(4294967295) and DocumentId(4294967295) leaves the context
indistinguishable from unset: a following Blob record takes the
write-and-commit path (one blob-store write, one commit operation) instead
of emitting a link-only operation. -/
theorem c10_sentinel_collision (key value : List Nat) :
    u32Max = 4294967295 ∧
    RState.init.accountId = u32Max ∧ RState.init.documentId = u32Max ∧
    (processOps RState.init [Op.accountId u32Max, Op.documentId u32Max, Op.family Family.blob, Op.keyValue key value]).2 = Option.none ∧
    (processOps RState.init [Op.accountId u32Max, Op.documentId u32Max, Op.family Family.blob, Op.keyValue key value]).1.blobWrites = [(key, value)] ∧
    (processOps RState.init [Op.accountId u32Max, Op.documentId u32Max, Op.family Family.blob, Op.keyValue key value]).1.batch.ops = [Operation.set (ValueClass.blob (BlobOp.commit key)) []] := by
  refine ⟨rfl, rfl, rfl, ?_, ?_, ?_⟩ <;>
    simp [processOps, step, generalFlush, applyKeyValue, applyBlob,
      RState.init, BatchBuilder.new, BatchBuilder.with_account_id,
      BatchBuilder.update_document, BatchBuilder.set, BatchBuilder.push]

end Restore

